import Mathlib

/-!
Verification of the Stock Allocation and Synthetic Invoice Generation Engine
of `automatizador_facturas`.

The development shallowly embeds the two engine modules:
  * `utils/optimizador_stock.py`  (column validation, exclusion filters,
    group aggregation, allocation post-processing: snap to a multiple of
    150 and cap at availability);
  * `utils/generador_facturas.py` (`fragmentar_cantidad_en_facturas` and
    `generar_facturas_desde_optimo`: chunking, business-day sampling,
    invoice numbering).

Modelling conventions:
  * Quantities are `Nat` (the documented input domain is integer >= 0);
    the raw fragmenter argument is `Int` because the source accepts and
    tests `total_qty <= 0`.
  * Randomness: the Python code draws from the process-global PRNGs
    (`random.random()`, `random.randint`, `np.random.choice`).  Each draw
    site is modelled by an explicit stream argument (`Nat -> Rat` for
    `random.random()`, `Nat -> Nat` for integer draws); theorems quantify
    over all streams, so every realisable PRNG behaviour is covered.
  * The `while` loop of the fragmenter is embedded with a fuel counter;
    fuel `remaining + 1` is an upper bound on the iteration count because
    every iteration either breaks or strictly decreases `remaining`.
  * File-system interaction (existence checks, Excel reading/writing) is a
    boundary concern excluded by the specification and is not modelled;
    the embedded functions compute the in-memory tables.
-/

namespace AutomatizadorFacturas

/-! ## Configuration constants (`utils/config.py`) -/

def MIN_HUEVOS : Nat := 300

def MAX_HUEVOS : Nat := 1500

def MULTIPLE_HUEVOS : Nat := 150

/-! ## Invoice fragmenter (`utils/generador_facturas.py`, lines 26-69)

`fragmentar_cantidad_en_facturas(total_qty, min_unit, max_unit, multiple)`
splits `total_qty` into chunk quantities.  The inner helper
`to_multiple(x) = max(multiple, (x // multiple) * multiple)` rounds down to
a multiple but never below `multiple` itself. -/

def to_multiple (multiple x : Nat) : Nat :=
  max multiple ((x / multiple) * multiple)

/-- One tier draw of the loop body (lines 45-51): `r = random.random()`;
30% pick `min(remaining, max_unit)`, next 50% pick
`min(remaining, int((min_unit + max_unit) / 2))`, else
`min(remaining, min_unit)`.  `int((min_unit + max_unit) / 2)` truncates the
exact half toward zero, which on naturals is floor division by 2. -/
def tierCandidate (r : Rat) (remaining min_unit max_unit : Nat) : Nat :=
  if r < mkRat 3 10 then min remaining max_unit
  else if r < mkRat 8 10 then min remaining ((min_unit + max_unit) / 2)
  else min remaining min_unit

/-- The post-loop step (lines 65-67): a positive leftover below `min_unit`
is appended as a final remainder chunk. -/
def leftoverChunks (remaining : Nat) : List Nat :=
  if remaining > 0 then [remaining] else []

/-- The `while remaining >= min_unit` loop (lines 43-62) together with the
post-loop remainder append, embedded with a fuel counter.  `draws i` is the
value of the `i`-th call to `random.random()`.  Both `break` statements
(candidate rounding to zero) fall through to the remainder append, exactly
as in the source. -/
def fragCore (draws : Nat → Rat) (min_unit max_unit multiple : Nat) :
    Nat → Nat → Nat → List Nat
  | 0, _, remaining => leftoverChunks remaining
  | fuel + 1, i, remaining =>
    if remaining < min_unit then leftoverChunks remaining
    else
      let candidate := to_multiple multiple
        (tierCandidate (draws i) remaining min_unit max_unit)
      if candidate = 0 then leftoverChunks remaining
      else if candidate > remaining then
        let candidate2 := (remaining / multiple) * multiple
        if candidate2 = 0 then leftoverChunks remaining
        else candidate2 ::
          fragCore draws min_unit max_unit multiple fuel (i + 1)
            (remaining - candidate2)
      else candidate ::
        fragCore draws min_unit max_unit multiple fuel (i + 1)
          (remaining - candidate)

/-- `fragmentar_cantidad_en_facturas` (lines 26-69).  `remaining =
int(total_qty)`; a non-positive total returns the empty list (line 35).
Fuel `remaining + 1` strictly bounds the number of loop iterations, since
each iteration removes at least one unit or breaks. -/
def fragmentar_cantidad_en_facturas (total_qty : Int) (draws : Nat → Rat)
    (min_unit : Nat := MIN_HUEVOS) (max_unit : Nat := MAX_HUEVOS)
    (multiple : Nat := MULTIPLE_HUEVOS) : List Nat :=
  if total_qty ≤ 0 then []
  else fragCore draws min_unit max_unit multiple (total_qty.toNat + 1) 0
    total_qty.toNat

/-! ### Conservation of the total (claim C2 machinery) -/

theorem leftoverChunks_sum (remaining : Nat) :
    (leftoverChunks remaining).sum = remaining := by
  unfold leftoverChunks
  split <;> simp
  omega

theorem fragCore_sum (draws : Nat → Rat) (min_unit max_unit multiple : Nat) :
    ∀ fuel i remaining,
      (fragCore draws min_unit max_unit multiple fuel i remaining).sum =
        remaining := by
  intro fuel
  induction fuel with
  | zero => intro i remaining; simpa [fragCore] using leftoverChunks_sum remaining
  | succ fuel ih =>
    intro i remaining
    unfold fragCore
    by_cases h1 : remaining < min_unit
    · simpa [h1] using leftoverChunks_sum remaining
    · simp only [h1, if_false]
      set c := to_multiple multiple
        (tierCandidate (draws i) remaining min_unit max_unit) with hc
      by_cases h2 : c = 0
      · simpa [h2] using leftoverChunks_sum remaining
      · by_cases h3 : c > remaining
        · set c2 := (remaining / multiple) * multiple with hc2
          by_cases h4 : c2 = 0
          · simpa [h2, h3, h4] using leftoverChunks_sum remaining
          · have hle : c2 ≤ remaining := Nat.div_mul_le_self remaining multiple
            simp only [h2, h3, h4, if_false, if_true, List.sum_cons, ih]
            omega
        · have hle : c ≤ remaining := Nat.not_lt.mp (by simpa using h3)
          simp only [h2, h3, if_false, List.sum_cons, ih]
          omega

/-- Definitional unfolding of one loop iteration of `fragCore`. -/
theorem fragCore_succ (draws : Nat → Rat) (mu Mu m fuel i rem : Nat) :
    fragCore draws mu Mu m (fuel + 1) i rem =
    (if rem < mu then leftoverChunks rem
    else
      let candidate := to_multiple m (tierCandidate (draws i) rem mu Mu)
      if candidate = 0 then leftoverChunks rem
      else if candidate > rem then
        let candidate2 := (rem / m) * m
        if candidate2 = 0 then leftoverChunks rem
        else candidate2 ::
          fragCore draws mu Mu m fuel (i + 1) (rem - candidate2)
      else candidate ::
        fragCore draws mu Mu m fuel (i + 1) (rem - candidate)) := rfl

/-! ### Bounds on the non-final chunks (claim C5 machinery), for the
configured constants `MIN=300`, `MAX=1500`, `MULTIPLE=150`. -/

theorem tierCandidate_bounds (r : Rat) (rem : Nat) (h : 300 ≤ rem) :
    300 ≤ tierCandidate r rem 300 1500 ∧
      tierCandidate r rem 300 1500 ≤ rem ∧
      tierCandidate r rem 300 1500 ≤ 1500 := by
  unfold tierCandidate
  split_ifs <;> omega

theorem to_multiple_bounds (x : Nat) (h1 : 300 ≤ x) (h2 : x ≤ 1500) :
    300 ≤ to_multiple 150 x ∧ to_multiple 150 x ≤ x ∧
      to_multiple 150 x % 150 = 0 := by
  unfold to_multiple
  have hx : 300 ≤ (x / 150) * 150 := by omega
  rw [Nat.max_eq_right (by omega)]
  refine ⟨hx, by omega, ?_⟩
  simp [Nat.mul_mod_left]

/-- Every chunk produced inside the loop (that is, every chunk that is not
the last element of the result) respects the invoice bounds and the
multiple constraint. -/
theorem fragCore_chunk_bounds (draws : Nat → Rat) :
    ∀ fuel i rem j,
      j + 1 < (fragCore draws 300 1500 150 fuel i rem).length →
      300 ≤ (fragCore draws 300 1500 150 fuel i rem).getD j 0 ∧
        (fragCore draws 300 1500 150 fuel i rem).getD j 0 ≤ 1500 ∧
        (fragCore draws 300 1500 150 fuel i rem).getD j 0 % 150 = 0 := by
  intro fuel
  induction fuel with
  | zero =>
    intro i rem j hj
    exfalso
    unfold fragCore leftoverChunks at hj
    split at hj <;> simp at hj
  | succ fuel ih =>
    intro i rem j hj
    rw [fragCore_succ] at hj ⊢
    by_cases h1 : rem < 300
    · exfalso
      unfold leftoverChunks at hj
      simp only [h1, if_true] at hj
      split at hj <;> simp at hj
    · have hrem : 300 ≤ rem := by omega
      obtain ⟨ht1, ht2, ht3⟩ := tierCandidate_bounds (draws i) rem hrem
      obtain ⟨hc1, hc2, hc3⟩ :=
        to_multiple_bounds (tierCandidate (draws i) rem 300 1500) ht1 ht3
      set c := to_multiple 150 (tierCandidate (draws i) rem 300 1500) with hc
      have hcne : ¬ c = 0 := by omega
      have hcle : ¬ c > rem := by omega
      simp only [h1, if_false, hcne, hcle] at hj ⊢
      cases j with
      | zero =>
        simp only [List.getD_cons_zero]
        exact ⟨hc1, by omega, hc3⟩
      | succ j =>
        simp only [List.getD_cons_succ]
        simp only [List.length_cons] at hj
        exact ih (i + 1) (rem - c) j (by omega)

/-! ## Allocation post-processing (`utils/optimizador_stock.py`) -/

/-- Python `round` applied to the exact rational `x / m` (round half to
even, the semantics of `round(x / MULTIPLO_HUEVOS)` at line 112; the tie
`x / m = k + 1/2` is exactly representable as a binary float for the
magnitudes involved, so banker rounding applies to it exactly). -/
def pyRoundDiv (m x : Nat) : Nat :=
  if 2 * (x % m) < m then x / m
  else if 2 * (x % m) > m then x / m + 1
  else if (x / m) % 2 = 0 then x / m else x / m + 1

/-- Lines 110-116 of `optimizador_stock.py`: snap a pre-allocation to the
nearest multiple of 150 (`MULTIPLO_HUEVOS * round(x / MULTIPLO_HUEVOS)`),
then cap at availability (`np.minimum(huevos_a_vender,
huevos_disponibles)`). -/
def snapCap (pre disponibles : Nat) : Nat :=
  min (150 * pyRoundDiv 150 pre) disponibles

/-! ## The Sales Aggregator / Allocation Optimizer
(`utils/optimizador_stock.py`, `optimizar_stock`, lines 34-146)

The input spreadsheet is modelled as a column-name list plus a row list;
reading the file from disk and writing the result file are boundary
concerns outside the engine.  The solver / heuristic branch (lines 80-108)
is abstracted as a parameter `preAsignar` producing one pre-allocation per
group; the integer linear program it solves in exact mode is axiomatised
below as the predicate `lpOptimalSingle` and theorems quantify over any
value satisfying it. -/

structure Registro where
  tipo : String
  valorUnitario : Rat
  cantidad : Nat
  nit : String
deriving DecidableEq

structure TablaEntrada where
  cols : List String
  rows : List Registro

structure Grupo where
  tipo : String
  valorUnitario : Rat
  disponibles : Nat
deriving DecidableEq

structure GrupoFinal where
  id : Nat
  tipo : String
  valorUnitario : Rat
  disponibles : Nat
  aVender : Nat
deriving DecidableEq

/-- Python exception classes relevant to the engine (`ValidationError` is
the typed error the specification prescribes; `ValueError` is what
`generar_facturas_desde_optimo` raises for bad columns). -/
inductive ExcPy where
  | validationError : ExcPy
  | valueError : ExcPy
deriving DecidableEq

/-- Outcome of a Python call: a normal return (possibly `None`, modelled
as `ret none`) or a raised exception. -/
inductive Resultado (α : Type) where
  | ret : Option α → Resultado α
  | raised : ExcPy → Resultado α
deriving DecidableEq

/-- Python `str.upper()` on the character list (all strings in this code
base are ASCII, where per-character upcasing coincides with Python). -/
def pyUpper (s : String) : String := ⟨s.data.map Char.toUpper⟩

/-- Python `str.lower()` on the character list. -/
def pyLower (s : String) : String := ⟨s.data.map Char.toLower⟩

/-- Python `str.strip()`: remove leading and trailing whitespace. -/
def pyStrip (s : String) : String :=
  ⟨((s.data.dropWhile Char.isWhitespace).reverse.dropWhile
    Char.isWhitespace).reverse⟩

def EXCLUIR_NITS : List String := ["79389881"]

def EXCLUIR_PRODUCTOS : List String := ["HUEVO QUEBRADO"]

def columnas_requeridas : List String :=
  ["tipo", "cantidad", "valor unitario", "nit_proveedor"]

/-- Line 47 followed by line 51: normalize the column names
(`c.strip().lower()`) and test `columnas_requeridas.issubset(df.columns)`. -/
def columnasValidas (t : TablaEntrada) : Bool :=
  columnas_requeridas.all
    (fun c => (t.cols.map (fun s => pyLower (pyStrip s))).contains c)

/-- Lines 56-57: drop rows whose upper-cased product type is excluded,
then rows whose vendor id is excluded. -/
def filtrarExclusiones (rows : List Registro) : List Registro :=
  (rows.filter (fun r => !(EXCLUIR_PRODUCTOS.contains (pyUpper r.tipo)))).filter
    (fun r => !(EXCLUIR_NITS.contains r.nit))

/-- One step of the groupby accumulation: add `r.cantidad` to the group
keyed by `(tipo, valor unitario)`, creating it if absent. -/
def insertarRegistro : List Grupo → Registro → List Grupo
  | [], r => [⟨r.tipo, r.valorUnitario, r.cantidad⟩]
  | g :: gs, r =>
    if g.tipo = r.tipo ∧ g.valorUnitario = r.valorUnitario then
      ⟨g.tipo, g.valorUnitario, g.disponibles + r.cantidad⟩ :: gs
    else g :: insertarRegistro gs r

/-- Line 64: `df.groupby(["tipo", "valor unitario"])["cantidad"].sum()`.
Groups appear in first-occurrence order (pandas sorts the keys instead;
the resulting multiset of groups is identical and no claim depends on the
order). -/
def agrupar (rows : List Registro) : List Grupo :=
  rows.foldl insertarRegistro []

/-- Lines 121 and 125-130: attach ids `1, 2, ...` to the finished groups. -/
def asignarIds : List (Grupo × Nat) → Nat → List GrupoFinal
  | [], _ => []
  | (g, a) :: gs, i =>
    ⟨i, g.tipo, g.valorUnitario, g.disponibles, a⟩ :: asignarIds gs (i + 1)

/-- `optimizar_stock` (lines 34-146).  The function returns `None` (here
`.ret none`) when required columns are missing (lines 51-53) or when no
rows survive the exclusion filters (lines 59-61); it raises nothing in
either case.  `preAsignar` abstracts the solver / heuristic branch that
fills `huevos_a_vender` before post-processing; the post-processing
(snap to a multiple of 150, cap at availability, lines 110-116) is
`snapCap`.  File output (lines 132-144) is a boundary concern. -/
def optimizar_stock (t : TablaEntrada)
    (preAsignar : List Grupo → List Nat) : Resultado (List GrupoFinal) :=
  if !(columnasValidas t) then .ret none
  else if (filtrarExclusiones t.rows).isEmpty then .ret none
  else .ret (some (asignarIds
    (((agrupar (filtrarExclusiones t.rows)).zip
        (preAsignar (agrupar (filtrarExclusiones t.rows)))).map
      (fun gp => (gp.1, snapCap gp.2 gp.1.disponibles))) 1))

/-- The integer linear program of lines 82-95, instantiated to a single
stock group: an integer variable `x` bounded by `0 ≤ x ≤ disponibles`
(line 85), the aggregate constraint `x ≤ target` (line 92), objective
maximize `x * price` (line 89). -/
def lpFeasibleSingle (disponibles target x : Nat) : Prop :=
  x ≤ disponibles ∧ x ≤ target

/-- `x` is an optimal solution of the single-group integer program. -/
def lpOptimalSingle (disponibles target : Nat) (price : Rat) (x : Nat) :
    Prop :=
  lpFeasibleSingle disponibles target x ∧
    ∀ y, lpFeasibleSingle disponibles target y →
      (y : Rat) * price ≤ (x : Rat) * price

/-- The post-processed allocation never exceeds availability, and is a
multiple of 150 except when the availability cap binds, in which case it
equals the availability. -/
theorem snapCap_spec (pre d : Nat) :
    snapCap pre d ≤ d ∧ (snapCap pre d % 150 = 0 ∨ snapCap pre d = d) := by
  unfold snapCap
  rcases Nat.le_total (150 * pyRoundDiv 150 pre) d with h | h
  · rw [Nat.min_eq_left h]
    exact ⟨h, Or.inl (Nat.mul_mod_right 150 _)⟩
  · rw [Nat.min_eq_right h]
    exact ⟨le_refl d, Or.inr rfl⟩

theorem mem_asignarIds :
    ∀ (l : List (Grupo × Nat)) (i : Nat) (g : GrupoFinal),
      g ∈ asignarIds l i →
      ∃ p ∈ l, g.disponibles = p.1.disponibles ∧ g.aVender = p.2 := by
  intro l
  induction l with
  | nil => intro i g hg; simp [asignarIds] at hg
  | cons p l ih =>
    intro i g hg
    obtain ⟨g1, a⟩ := p
    simp only [asignarIds, List.mem_cons] at hg
    rcases hg with hg | hg
    · exact ⟨(g1, a), List.mem_cons_self _ _, by simp [hg]⟩
    · obtain ⟨q, hq, hq2⟩ := ih (i + 1) g hg
      exact ⟨q, List.mem_cons_of_mem _ hq, hq2⟩

/-- The unique optimum of the scenario-A program is `x = 1000`. -/
theorem lpOptimalSingle_A_unique (x : Nat)
    (hx : lpOptimalSingle 1000 1000 500 x) : x = 1000 := by
  obtain ⟨⟨h1, h2⟩, hopt⟩ := hx
  have h3 := hopt 1000 ⟨le_refl 1000, le_refl 1000⟩
  have h4 : (1000 : Rat) ≤ (x : Rat) := by
    push_cast at h3
    nlinarith
  have h5 : (1000 : Nat) ≤ x := by exact_mod_cast h4
  omega

/-! ## Invoice generation
(`utils/generador_facturas.py`, `generar_facturas_desde_optimo`,
lines 71-178)

The stock table read at line 78 is grouped by calendar month of the
reference date (line 104); for each month group the code derives the
month window `[month_start, month_end]` (lines 107-110) and its business
days (line 113).  A month group is modelled by its row list plus the two
facts about the window the day computation uses: the number of days of
the month and the Python weekday (`Monday = 0`, as in
`datetime.date.weekday`) of its first day. -/

structure Fila where
  id : Nat
  tipo : String
  valorUnitario : Rat
  aVender : Int
  sizeDraws : Nat → Rat

structure Mes where
  monthLen : Nat
  firstWeekday : Nat
  rows : List Fila

/-- Line 113, `pd.bdate_range(start=month_start, end=month_end)`: the
days `1, ..., monthLen` of the month whose weekday is Monday-Friday
(weekday `< 5`). -/
def bdays (m : Mes) : List Nat :=
  ((List.range m.monthLen).map (· + 1)).filter
    (fun d => (m.firstWeekday + (d - 1)) % 7 < 5)

/-- Line 141, `np.random.choice(bdays, p=day_probs)`: the draw selects
one element of the population (which element depends on the PRNG draw
`j`; every element with positive weight is possible, and all weights at
lines 115-123 are positive).  `np.random.choice` demands a nonempty
population; the theorems below supply `28 ≤ monthLen`, which holds for
every calendar month and forces nonemptiness. -/
def chooseDay (bd : List Nat) (j : Nat) : Nat :=
  bd.getD (j % bd.length) 0

/-- One output row of the generator (lines 146-157).  `fecha` is the day
of month of the chosen date; the source formats it as `DD/MM/YYYY` and
prefixes the invoice number with `"LSFE "`, pure presentation that is
dropped here.  The `round(x, 2)` display rounding of the price fields is
omitted; no claim concerns the rounded values. -/
structure Factura where
  fecha : Nat
  numero : Nat
  tipo : String
  precioBase : Rat
  huevos : Nat
  cubetas : Nat
  precioVentaHuevo : Rat
  valorTotal : Rat
  idStock : Nat
deriving DecidableEq

def facturaDefault : Factura := ⟨0, 0, "", 0, 0, 0, 0, 0, 0⟩

/-- Lines 138-160: one invoice per chunk `p`; the `n`-th invoice of the
month draws its day and its margin (`random.randint(3, 5)`, modelled as
`3 + draw n % 3`) and is numbered `n`. -/
def facturasFila (bd : List Nat) (dayDraws margenDraws : Nat → Nat)
    (tipo : String) (precioBase : Rat) (idStock : Nat) :
    List Nat → Nat → List Factura
  | [], _ => []
  | p :: ps, n =>
    let margen : Nat := 3 + margenDraws n % 3
    let pv : Rat := precioBase + (margen : Rat)
    ⟨chooseDay bd (dayDraws n), n, tipo, precioBase, p, p / 30, pv,
      (p : Rat) * pv, idStock⟩ ::
      facturasFila bd dayDraws margenDraws tipo precioBase idStock ps (n + 1)

/-- Lines 129-161: iterate the rows of one month group; rows with a
non-positive quantity are skipped (line 131); each remaining row is
fragmented and its chunks become consecutively numbered invoices. -/
def genFilas (bd : List Nat) (dayDraws margenDraws : Nat → Nat) :
    List Fila → Nat → List Factura
  | [], _ => []
  | f :: fs, n =>
    if f.aVender ≤ 0 then genFilas bd dayDraws margenDraws fs n
    else
      let partes := fragmentar_cantidad_en_facturas f.aVender f.sizeDraws
      facturasFila bd dayDraws margenDraws f.tipo f.valorUnitario f.id
          partes n
        ++ genFilas bd dayDraws margenDraws fs (n + partes.length)

/-- One month group (lines 104-161): the invoice counter `numero_factura`
is initialised to `7000` at line 126, inside the month loop. -/
def generarMes (m : Mes) (dayDraws margenDraws : Nat → Nat) : List Factura :=
  genFilas (bdays m) dayDraws margenDraws m.rows 7000

/-- The whole run: the concatenation `todas_facturas` of the month
groups, in emission order (lines 101-161; the per-sheet date sort at
line 166 affects only the per-month worksheets, not the emission
order). -/
def generar_facturas_desde_optimo (meses : List Mes)
    (dayDraws margenDraws : Nat → Nat) : List Factura :=
  (meses.map (fun m => generarMes m dayDraws margenDraws)).flatten

/-! ### Business-day lemmas (claim C6 machinery) -/

theorem mem_bdays (m : Mes) (d : Nat) (hd : d ∈ bdays m) :
    (m.firstWeekday + (d - 1)) % 7 < 5 ∧ 1 ≤ d ∧ d ≤ m.monthLen := by
  unfold bdays at hd
  simp only [List.mem_filter, List.mem_map, List.mem_range,
    decide_eq_true_eq] at hd
  obtain ⟨⟨k, hk, hkd⟩, hpred⟩ := hd
  omega

theorem bdays_ne_nil (m : Mes) (h : 28 ≤ m.monthLen) : bdays m ≠ [] := by
  have hmem : 1 + (7 - m.firstWeekday % 7) % 7 ∈ bdays m := by
    unfold bdays
    simp only [List.mem_filter, List.mem_map, List.mem_range,
      decide_eq_true_eq]
    constructor
    · exact ⟨(7 - m.firstWeekday % 7) % 7, by omega, by omega⟩
    · omega
  exact List.ne_nil_of_mem hmem

theorem chooseDay_mem (bd : List Nat) (j : Nat) (h : bd ≠ []) :
    chooseDay bd j ∈ bd := by
  unfold chooseDay
  have hlen : 0 < bd.length := List.length_pos.mpr h
  have hlt : j % bd.length < bd.length := Nat.mod_lt _ hlen
  rw [bd.getD_eq_getElem 0 hlt]
  exact bd.getElem_mem hlt

theorem facturasFila_fecha (bd : List Nat) (dd md : Nat → Nat)
    (tipo : String) (pb : Rat) (idS : Nat) :
    ∀ partes n f, f ∈ facturasFila bd dd md tipo pb idS partes n →
      ∃ j, f.fecha = chooseDay bd j := by
  intro partes
  induction partes with
  | nil => intro n f hf; simp [facturasFila] at hf
  | cons p ps ih =>
    intro n f hf
    simp only [facturasFila, List.mem_cons] at hf
    rcases hf with hf | hf
    · exact ⟨dd n, by rw [hf]⟩
    · exact ih (n + 1) f hf

theorem genFilas_fecha (bd : List Nat) (dd md : Nat → Nat) :
    ∀ filas n f, f ∈ genFilas bd dd md filas n →
      ∃ j, f.fecha = chooseDay bd j := by
  intro filas
  induction filas with
  | nil => intro n f hf; simp [genFilas] at hf
  | cons fila fs ih =>
    intro n f hf
    unfold genFilas at hf
    by_cases hq : fila.aVender ≤ 0
    · exact ih n f (by simpa [hq] using hf)
    · simp only [hq, if_false, List.mem_append] at hf
      rcases hf with hf | hf
      · exact facturasFila_fecha bd dd md fila.tipo fila.valorUnitario
          fila.id _ n f hf
      · exact ih _ f hf

/-! ### Invoice-number lemmas (claim C9 machinery) -/

theorem facturasFila_numero (bd : List Nat) (dd md : Nat → Nat)
    (tipo : String) (pb : Rat) (idS : Nat) :
    ∀ partes n,
      (facturasFila bd dd md tipo pb idS partes n).map (fun f => f.numero) =
        List.range' n partes.length := by
  intro partes
  induction partes with
  | nil => intro n; simp [facturasFila]
  | cons p ps ih =>
    intro n
    simp only [facturasFila, List.map_cons, List.length_cons,
      List.range'_succ, ih]

theorem facturasFila_length (bd : List Nat) (dd md : Nat → Nat)
    (tipo : String) (pb : Rat) (idS : Nat) (partes : List Nat) (n : Nat) :
    (facturasFila bd dd md tipo pb idS partes n).length = partes.length := by
  have h := congrArg List.length (facturasFila_numero bd dd md tipo pb idS
    partes n)
  simpa using h

theorem genFilas_numero (bd : List Nat) (dd md : Nat → Nat) :
    ∀ filas n,
      (genFilas bd dd md filas n).map (fun f => f.numero) =
        List.range' n (genFilas bd dd md filas n).length := by
  intro filas
  induction filas with
  | nil => intro n; simp [genFilas]
  | cons fila fs ih =>
    intro n
    unfold genFilas
    by_cases hq : fila.aVender ≤ 0
    · simpa [hq] using ih n
    · simp only [hq, if_false, List.map_append, List.length_append,
        facturasFila_numero, facturasFila_length, ih]
      have := List.range'_append n
        (fragmentar_cantidad_en_facturas fila.aVender fila.sizeDraws).length
        (genFilas bd dd md fs
          (n + (fragmentar_cantidad_en_facturas fila.aVender
            fila.sizeDraws).length)).length 1
      simp only [Nat.mul_one, Nat.one_mul] at this
      rw [Nat.add_comm ((genFilas bd dd md fs _).length)] at this
      exact this

/-! ## Concrete inputs used by counterexamples and witnesses -/

/-- Scenario A of the specification: one group with availability 1000,
unit price 500 (target_sales equals total availability, 1000, by
line 75 of `optimizador_stock.py`). -/
def tablaEscenarioA : TablaEntrada :=
  ⟨["tipo", "cantidad", "valor unitario", "nit_proveedor"],
   [⟨"HUEVO AA", 500, 1000, "900123456"⟩]⟩

/-- The pre-allocation the exact (PuLP) branch produces on scenario A:
the unique optimum of the integer program, `x = 1000`. -/
def preEscenarioA : List Grupo → List Nat := fun _ => [1000]

/-- A pre-allocation strategy used in witnesses: sell everything. -/
def preDisponibles : List Grupo → List Nat :=
  fun gs => gs.map (fun g => g.disponibles)

/-- A table whose only row carries an excluded product, so that nothing
survives the exclusion filters. -/
def tablaFiltradaVacia : TablaEntrada :=
  ⟨["tipo", "cantidad", "valor unitario", "nit_proveedor"],
   [⟨"HUEVO QUEBRADO", 400, 100, "800100200"⟩]⟩

/-- A table missing the required columns. -/
def tablaSinColumnas : TablaEntrada :=
  ⟨["tipo", "cantidad"], [⟨"HUEVO AA", 500, 1000, "900123456"⟩]⟩

/-- The group row produced by `optimizar_stock` on scenario A with the
exact-mode pre-allocation. -/
def grupoEscenarioA : GrupoFinal := ⟨1, "HUEVO AA", 500, 1000, 1000⟩

def drawsBajo : Nat → Rat := fun _ => mkRat 1 10

def drawsAlto : Nat → Rat := fun _ => mkRat 9 10

def ddCero : Nat → Nat := fun _ => 0

def mdCero : Nat → Nat := fun _ => 0

/-- A 30-day month whose first day is a Wednesday (weekday 2), with one
stock row of 450 eggs. -/
def mesEjemplo : Mes := ⟨30, 2, [⟨1, "HUEVO AA", 500, 450, drawsBajo⟩]⟩

/-- A 31-day month whose first day is a Friday (weekday 4), with one
stock row of 450 eggs. -/
def mesSegundo : Mes := ⟨31, 4, [⟨2, "HUEVO B", 450, 450, drawsBajo⟩]⟩

/-- `x = 1000` solves the scenario-A integer program. -/
theorem lpOptimalSingle_A : lpOptimalSingle 1000 1000 500 1000 := by
  refine ⟨⟨le_refl 1000, le_refl 1000⟩, ?_⟩
  intro y hy
  have h1 : (y : Rat) ≤ 1000 := by exact_mod_cast hy.1
  push_cast
  nlinarith

/-! ## Claim C1 -/

/-- C1 counterexample.  On scenario A the exact-mode pre-allocation is
the unique optimum 1000 of the integer program; the optimizer snaps it
to 1050 and caps it with `min` at the availability 1000, whose residue
modulo 150 is 100, so the claimed invariant `allocated mod 150 == 0`
fails on this run. -/
theorem c1_contraejemplo :
    lpOptimalSingle 1000 1000 500 1000 ∧
      optimizar_stock tablaEscenarioA preEscenarioA =
        .ret (some [grupoEscenarioA]) ∧
      grupoEscenarioA.aVender = grupoEscenarioA.disponibles ∧
      ¬ grupoEscenarioA.aVender % 150 = 0 :=
  ⟨lpOptimalSingle_A, by decide, by decide, by decide⟩

/-- C1 (amended): after the Allocation Optimizer runs, every stock group
satisfies `0 ≤ allocated ≤ available` (the lower bound holds because
quantities are naturals), and `allocated mod 150 == 0` holds except when
the availability cap binds, in which case `allocated = available`, which
need not be a multiple of 150. -/
theorem c1_invariante_asignacion (t : TablaEntrada)
    (pre : List Grupo → List Nat) (gs : List GrupoFinal) (g : GrupoFinal)
    (hres : optimizar_stock t pre = .ret (some gs)) (hg : g ∈ gs) :
    g.aVender ≤ g.disponibles ∧
      (g.aVender % 150 = 0 ∨ g.aVender = g.disponibles) := by
  unfold optimizar_stock at hres
  split_ifs at hres with h1 h2
  · simp at hres
  · simp at hres
  · simp only [Resultado.ret.injEq, Option.some.injEq] at hres
    subst hres
    obtain ⟨p, hp, hd, ha⟩ := mem_asignarIds _ _ g hg
    obtain ⟨q, _, hq⟩ := List.mem_map.mp hp
    rw [← hq] at hd ha
    rw [ha, hd]
    exact snapCap_spec q.2 q.1.disponibles

/-- C1 amended, witness: the scenario-A run satisfies the amended
invariant. -/
theorem c1_testigo :
    grupoEscenarioA.aVender ≤ grupoEscenarioA.disponibles ∧
      (grupoEscenarioA.aVender % 150 = 0 ∨
        grupoEscenarioA.aVender = grupoEscenarioA.disponibles) :=
  c1_invariante_asignacion tablaEscenarioA preEscenarioA [grupoEscenarioA]
    grupoEscenarioA (by decide) (by decide)

/-! ## Claim C2 -/

/-- C2: for every non-negative allocated quantity and every draw stream
(and every parameter triple), the chunk quantities returned by
`fragmentar_cantidad_en_facturas` sum exactly to the allocated quantity,
in integer arithmetic. -/
theorem c2_suma_fragmentos (total : Int) (draws : Nat → Rat)
    (mu Mu mult : Nat) (h : 0 ≤ total) :
    ((fragmentar_cantidad_en_facturas total draws mu Mu mult).sum : Int) =
      total := by
  unfold fragmentar_cantidad_en_facturas
  by_cases h0 : total ≤ 0
  · have : total = 0 := le_antisymm h0 h
    simp [this]
  · simp only [h0, if_false, fragCore_sum]
    exact Int.toNat_of_nonneg h

/-- C2 witness at allocated 450 with an all-high draw stream. -/
theorem c2_testigo :
    (0 : Int) ≤ 450 ∧
      ((fragmentar_cantidad_en_facturas 450 drawsAlto MIN_HUEVOS MAX_HUEVOS
        MULTIPLE_HUEVOS).sum : Int) = 450 :=
  ⟨by norm_num,
   c2_suma_fragmentos 450 drawsAlto MIN_HUEVOS MAX_HUEVOS MULTIPLE_HUEVOS
     (by norm_num)⟩

/-! ## Claim C3 -/

/-- C3 counterexample.  On scenario A the claim predicts a final
allocation of 900; the code produces 1000: the unique optimum 1000 of
the exact-mode program snaps to 1050 and `np.minimum` caps it at the
availability 1000 without re-snapping down to a multiple. -/
theorem c3_contraejemplo :
    lpOptimalSingle 1000 1000 500 1000 ∧
      optimizar_stock tablaEscenarioA preEscenarioA =
        .ret (some [⟨1, "HUEVO AA", 500, 1000, 1000⟩]) ∧
      (1000 : Nat) ≠ 900 :=
  ⟨lpOptimalSingle_A, by decide, by decide⟩

/-- C3 (amended): for every solver output that is optimal for the
scenario-A integer program, the final allocated value is 1000 (snap to
1050, then cap at the availability 1000), not 900. -/
theorem c3_asignacion_final (x : Nat)
    (hx : lpOptimalSingle 1000 1000 500 x) :
    optimizar_stock tablaEscenarioA (fun _ => [x]) =
      .ret (some [⟨1, "HUEVO AA", 500, 1000, 1000⟩]) := by
  have h := lpOptimalSingle_A_unique x hx
  subst h
  decide

/-- C3 amended, witness at the optimum 1000. -/
theorem c3_testigo :
    optimizar_stock tablaEscenarioA (fun _ => [1000]) =
      .ret (some [⟨1, "HUEVO AA", 500, 1000, 1000⟩]) :=
  c3_asignacion_final 1000 lpOptimalSingle_A

/-! ## Claim C4 -/

/-- C4 counterexample: when the first tier draw lands in the
small-chunk branch (`r ≥ 0.8`), allocated 450 is split as 300 + 150, so
the fragmenter does not return one chunk of 450 for every draw
sequence. -/
theorem c4_contraejemplo :
    fragmentar_cantidad_en_facturas 450 drawsAlto ≠ [450] := by decide

/-- C4 (amended): for allocated 450 the fragmenter returns the single
chunk `[450]` exactly when the first draw falls in the large or medium
tier (`r < 0.8`); in the remaining (small) tier it returns
`[300, 150]`.  In both cases the chunks sum to 450. -/
theorem c4_fragmentacion_450 (draws : Nat → Rat) :
    fragmentar_cantidad_en_facturas 450 draws =
      if draws 0 < mkRat 4 5 then [450] else [300, 150] := by
  have e1 : fragmentar_cantidad_en_facturas 450 draws =
      fragCore draws 300 1500 150 (450 + 1) 0 450 := by
    simp [fragmentar_cantidad_en_facturas, MIN_HUEVOS, MAX_HUEVOS,
      MULTIPLE_HUEVOS]
  rw [e1, fragCore_succ]
  by_cases h1 : draws 0 < mkRat 3 10
  · have h2 : draws 0 < mkRat 4 5 := by
      refine lt_trans h1 ?_
      rw [Rat.mkRat_eq_div, Rat.mkRat_eq_div]
      norm_num
    simp [tierCandidate, to_multiple, h1, h2, fragCore_succ, leftoverChunks]
  · by_cases h3 : draws 0 < mkRat 8 10
    · have h2 : draws 0 < mkRat 4 5 := by
        have h45 : mkRat 8 10 = mkRat 4 5 := by
          rw [Rat.mkRat_eq_div, Rat.mkRat_eq_div]
          norm_num
        rwa [h45] at h3
      simp [tierCandidate, to_multiple, h1, h3, h2, fragCore_succ,
        leftoverChunks]
    · have h2 : ¬ draws 0 < mkRat 4 5 := by
        have h45 : mkRat 8 10 = mkRat 4 5 := by
          rw [Rat.mkRat_eq_div, Rat.mkRat_eq_div]
          norm_num
        rwa [h45] at h3
      simp [tierCandidate, to_multiple, h1, h3, h2, fragCore_succ,
        leftoverChunks]

/-! ## Claim C5 -/

/-- C5: for every allocated quantity and every draw sequence, every
chunk of the fragmentation except possibly the last satisfies
`300 ≤ qty ≤ 1500` and `qty mod 150 == 0` (with the configured
`MIN=300`, `MAX=1500`, `MULTIPLE=150`); only the trailing chunk may be
the sub-MIN remainder. -/
theorem c5_cotas_fragmentos (total : Int) (draws : Nat → Rat) (j : Nat)
    (hj : j + 1 < (fragmentar_cantidad_en_facturas total draws).length) :
    300 ≤ (fragmentar_cantidad_en_facturas total draws).getD j 0 ∧
      (fragmentar_cantidad_en_facturas total draws).getD j 0 ≤ 1500 ∧
      (fragmentar_cantidad_en_facturas total draws).getD j 0 % 150 = 0 := by
  unfold fragmentar_cantidad_en_facturas at hj ⊢
  by_cases h0 : total ≤ 0
  · simp [h0] at hj
  · simp only [h0, if_false] at hj ⊢
    exact fragCore_chunk_bounds draws _ 0 total.toNat j hj

/-- C5 witness: allocated 1000 with all-small draws fragments as
`[300, 300, 300, 100]`; its first chunk is subject to the bounds. -/
theorem c5_testigo :
    0 + 1 < (fragmentar_cantidad_en_facturas 1000 drawsAlto).length ∧
      (300 ≤ (fragmentar_cantidad_en_facturas 1000 drawsAlto).getD 0 0 ∧
        (fragmentar_cantidad_en_facturas 1000 drawsAlto).getD 0 0 ≤ 1500 ∧
        (fragmentar_cantidad_en_facturas 1000 drawsAlto).getD 0 0 % 150
          = 0) :=
  ⟨by decide, c5_cotas_fragmentos 1000 drawsAlto 0 (by decide)⟩

/-! ## Claim C7 -/

/-- C7: the output of the chunk-sizing stage depends on the values drawn
from the process-global, never-seeded `random` module: two executions on
the identical input 450 whose global PRNG states yield the draw 0.1
versus the draw 0.98 produce different chunk lists.  The program exposes
no seed parameter that determines these draws (the only seeding in the
code base is the hard-coded `np.random.seed(42)` inside the heuristic
branch of the optimizer, which does not govern `random.random()`), so
the determinism the specification demands is not achievable in the code
as written. -/
theorem c7_dependencia_flujo_aleatorio :
    fragmentar_cantidad_en_facturas 450 drawsBajo = [450] ∧
      fragmentar_cantidad_en_facturas 450 (fun _ => mkRat 49 50) =
        [300, 150] ∧
      fragmentar_cantidad_en_facturas 450 drawsBajo ≠
        fragmentar_cantidad_en_facturas 450 (fun _ => mkRat 49 50) :=
  ⟨by decide, by decide, by decide⟩

/-! ## Claim C10 -/

/-- C10: for every total quantity `≤ 0` (any parameters, any draws) the
fragmenter returns the empty list, whose chunk sum is 0, not the
input. -/
theorem c10_no_positivo_vacio (total : Int) (draws : Nat → Rat)
    (mu Mu mult : Nat) (h : total ≤ 0) :
    fragmentar_cantidad_en_facturas total draws mu Mu mult = [] ∧
      (fragmentar_cantidad_en_facturas total draws mu Mu mult).sum = 0 := by
  unfold fragmentar_cantidad_en_facturas
  simp [h]

/-- C10 witness at total `-5`. -/
theorem c10_testigo :
    (-5 : Int) ≤ 0 ∧
      (fragmentar_cantidad_en_facturas (-5) drawsBajo MIN_HUEVOS MAX_HUEVOS
          MULTIPLE_HUEVOS = [] ∧
        (fragmentar_cantidad_en_facturas (-5) drawsBajo MIN_HUEVOS
          MAX_HUEVOS MULTIPLE_HUEVOS).sum = 0) :=
  ⟨by norm_num,
   c10_no_positivo_vacio (-5) drawsBajo MIN_HUEVOS MAX_HUEVOS
     MULTIPLE_HUEVOS (by norm_num)⟩

/-- The default-padded head of a nonempty list is a member. -/
theorem getD_zero_mem {α : Type} (l : List α) (d : α) (h : l ≠ []) :
    l.getD 0 d ∈ l := by
  cases l with
  | nil => exact absurd rfl h
  | cons a t => simp

/-! ## Claim C6 -/

/-- C6: every synthetic invoice emitted for a month group carries a date
that is a business day (Python weekday `< 5`, Monday through Friday) and
lies inside the month window derived from the group's reference date
(day `1` through `monthLen`).  Every invoice of the full run
`generar_facturas_desde_optimo` belongs to `generarMes` of one of its
month groups, since the run is their concatenation.  The hypothesis
`28 ≤ monthLen` holds for every calendar month and guarantees the
business-day population sampled at line 141 is nonempty. -/
theorem c6_fechas_habiles (meses : List Mes) (dd md : Nat → Nat)
    (m : Mes) (f : Factura) (_hm : m ∈ meses) (hlen : 28 ≤ m.monthLen)
    (hf : f ∈ generarMes m dd md) :
    (m.firstWeekday + (f.fecha - 1)) % 7 < 5 ∧
      1 ≤ f.fecha ∧ f.fecha ≤ m.monthLen := by
  obtain ⟨j, hj⟩ := genFilas_fecha (bdays m) dd md m.rows 7000 f hf
  have hne := bdays_ne_nil m hlen
  have hmem : f.fecha ∈ bdays m := hj ▸ chooseDay_mem (bdays m) j hne
  exact mem_bdays m f.fecha hmem

/-- C6 witness: the first invoice generated for the example month. -/
theorem c6_testigo :
    (mesEjemplo.firstWeekday +
        (((generarMes mesEjemplo ddCero mdCero).getD 0
          facturaDefault).fecha - 1)) % 7 < 5 ∧
      1 ≤ ((generarMes mesEjemplo ddCero mdCero).getD 0
        facturaDefault).fecha ∧
      ((generarMes mesEjemplo ddCero mdCero).getD 0
        facturaDefault).fecha ≤ mesEjemplo.monthLen :=
  c6_fechas_habiles [mesEjemplo] ddCero mdCero mesEjemplo
    ((generarMes mesEjemplo ddCero mdCero).getD 0 facturaDefault)
    (List.mem_singleton.mpr rfl) (by decide)
    (getD_zero_mem (generarMes mesEjemplo ddCero mdCero) facturaDefault
      (by decide))

/-! ## Claim C8 -/

/-- C8 counterexample: on an input that is empty after the exclusion
filters, `optimizar_stock` returns `None` (no output table) instead of
raising a typed `ValidationError` — no `ValidationError` class exists
anywhere in the code base. -/
theorem c8_contraejemplo :
    optimizar_stock tablaFiltradaVacia preDisponibles = .ret none ∧
      (Resultado.ret none : Resultado (List GrupoFinal)) ≠
        .raised .validationError :=
  ⟨by decide, by decide⟩

/-- C8 (amended): if required input columns are absent, or the input is
empty after the vendor/product exclusion filters, `optimizar_stock`
signals failure by returning `None`, producing no output table; it does
not raise a typed `ValidationError`. -/
theorem c8_devuelve_none (t : TablaEntrada) (pre : List Grupo → List Nat)
    (h : columnasValidas t = false ∨ filtrarExclusiones t.rows = []) :
    optimizar_stock t pre = .ret none := by
  unfold optimizar_stock
  rcases h with h | h
  · simp [h]
  · simp [h]

/-- C8 amended, witness: a table missing required columns. -/
theorem c8_testigo :
    optimizar_stock tablaSinColumnas preDisponibles = .ret none :=
  c8_devuelve_none tablaSinColumnas preDisponibles (Or.inl (by decide))

/-! ## Claim C9 -/

/-- C9 counterexample: `numero_factura` is reset to 7000 inside the
month loop (line 126), so in a run with two month groups the first
invoice of the second month repeats the number 7000 and the run-wide
sequence is not strictly increasing. -/
theorem c9_contraejemplo :
    ¬ List.Pairwise (fun a b => a.numero < b.numero)
      (generar_facturas_desde_optimo [mesEjemplo, mesSegundo] ddCero
        mdCero) := by decide

/-- C9 (amended): invoice numbers start at the fixed offset 7000 and
increase consecutively (hence strictly monotonically) within each month
group; the counter is re-initialised to 7000 for every month group
rather than being scoped to the entire run. -/
theorem c9_numeracion_por_mes (m : Mes) (dd md : Nat → Nat) :
    (generarMes m dd md).map (fun f => f.numero) =
      List.range' 7000 ((generarMes m dd md).length) :=
  genFilas_numero (bdays m) dd md m.rows 7000

end AutomatizadorFacturas
